import Mathlib

/-!
Verification of the producer/consumer queue core in `ProducerConsumer.h`:
the `Queue` container, its `SafeQueue` and `SizeLimitedQueue` decorators,
the `BruteForceProduceConsume`, `SleepProduceConsume` and
`WaitProduceConsume` strategies, and the tester builder.

The embedding is shallow: the C++ `std::queue<int>` payload is a
`List Int` whose head is the front of the queue and whose last element is
the back; `bool consume(int& value)` becomes a function taking the current
value of the referenced variable and returning the result flag, the final
value of the variable and the new container state; operations whose C++
execution is undefined behaviour (reading `back()` of an empty
`std::queue`, falling off the end of a non-void function) are mapped to
explicit `none` / `undef` outcomes.
-/

namespace PC

/-- The capability set of `IQueue` (ProducerConsumer.h lines 17-25): a
queue-like object over a state type `σ` with `produce`, `consume`,
`empty`, `full` and `size`.  `consume` takes the incoming value of the
by-reference `int& value` argument and yields `(result, value, state)`;
`none` marks undefined behaviour of the underlying operation. -/
structure IQueueImpl (σ : Type) where
  produce : σ → Int → Option (Bool × σ)
  consume : σ → Int → Option (Bool × Int × σ)
  empty : σ → Bool
  full : σ → Bool
  size : σ → Int

/-- `Queue::produce` (lines 32-35): `queue.push(value); return true;` —
push appends to the back of `std::queue`, and the call always succeeds. -/
def Queue.produce (q : List Int) (v : Int) : Option (Bool × List Int) :=
  some (true, q ++ [v])

/-- `Queue::consume` (lines 36-40): `value = queue.back(); queue.pop();
return true;` — `back()` reads the most recently pushed element while
`pop()` discards the front element.  Both calls have undefined behaviour
on an empty `std::queue`, modelled as `none`. -/
def Queue.consume (q : List Int) (_v : Int) : Option (Bool × Int × List Int) :=
  match q.getLast? with
  | none => none
  | some b => some (true, b, q.tail)

/-- The `Queue` core (lines 27-44): overrides `produce`, `consume`,
`empty` (line 41: `queue.empty()`) and `size` (line 42: `queue.size()`);
`full` is not overridden, so `IQueue::full` (line 22) applies and always
returns `false`. -/
def Queue.impl : IQueueImpl (List Int) where
  produce := Queue.produce
  consume := Queue.consume
  empty q := q.isEmpty
  full _ := false
  size q := (q.length : Int)

/-- `QueueDecorator` (lines 47-64): holds the wrapped `IQueue` and
forwards every operation to it unchanged. -/
def QueueDecorator.impl {σ : Type} (inner : IQueueImpl σ) : IQueueImpl σ :=
  inner

/-- `SafeQueue::consume` (lines 70-73): `if (QueueDecorator::empty())
return false;` — on an empty queue it reports failure without touching
the referenced value or the inner queue; otherwise it forwards to the
wrapped consume. -/
def SafeQueue.consume {σ : Type} (inner : IQueueImpl σ) (s : σ) (v : Int) :
    Option (Bool × Int × σ) :=
  if inner.empty s then some (false, v, s) else inner.consume s v

/-- `SafeQueue` (lines 66-75): a `QueueDecorator` overriding only
`consume`; `produce`, `empty`, `full` and `size` are inherited
forwarding. -/
def SafeQueue.impl {σ : Type} (inner : IQueueImpl σ) : IQueueImpl σ :=
  { QueueDecorator.impl inner with consume := SafeQueue.consume inner }

/-- `SizeLimitedQueue::full` (lines 88-90): `QueueDecorator::size() >=
maxSize || QueueDecorator::full()`. -/
def SizeLimitedQueue.full {σ : Type} (inner : IQueueImpl σ) (maxSize : Int)
    (s : σ) : Bool :=
  decide (maxSize ≤ inner.size s) || inner.full s

/-- `SizeLimitedQueue::produce` (lines 84-87): `if (full()) return false;`
then forwards to the wrapped produce. -/
def SizeLimitedQueue.produce {σ : Type} (inner : IQueueImpl σ) (maxSize : Int)
    (s : σ) (v : Int) : Option (Bool × σ) :=
  if SizeLimitedQueue.full inner maxSize s then some (false, s)
  else inner.produce s v

/-- `SizeLimitedQueue` (lines 77-92): a `QueueDecorator` overriding
`produce` and `full`; `consume`, `empty` and `size` are inherited
forwarding. -/
def SizeLimitedQueue.impl {σ : Type} (inner : IQueueImpl σ) (maxSize : Int) :
    IQueueImpl σ :=
  { QueueDecorator.impl inner with
      produce := SizeLimitedQueue.produce inner maxSize
      full := SizeLimitedQueue.full inner maxSize }

/-- The `SizeLimitedQueue` constructor (lines 82-83): it merely stores
`pQueue` and `maxSize`, with no validation of `maxSize` whatsoever, so
construction succeeds for every capacity; `none` would model a rejected
construction and is never produced. -/
def SizeLimitedQueue.construct {σ : Type} (inner : IQueueImpl σ)
    (maxSize : Int) : Option (IQueueImpl σ) :=
  some (SizeLimitedQueue.impl inner maxSize)

/-- `ProduceConsumeStrategy::setStop` (line 106): `this->stop = stop;` —
the new flag value is exactly the argument, whatever the current value. -/
def setStop (_current : Bool) (b : Bool) : Bool := b

/-- The stop flag after a sequence of `setStop` calls, applied left to
right. -/
def applySetStops (s : Bool) (calls : List Bool) : Bool :=
  calls.foldl setStop s

/-- Outcome of an `int`-returning strategy call: either a `return`
statement executed with the given value, or control fell off the end of
the non-void function — undefined behaviour in C++. -/
inductive ConsumeResult where
  | value (v : Int)
  | undef
deriving DecidableEq, Repr

/-- Outcome of running a strategy loop against a queue with state type
`σ`: the function returned (`ret`), the inner queue operation hit
undefined behaviour (`ub`), or the supplied fuel ran out while the loop
was still retrying (`spin`). -/
inductive LoopOut (σ : Type) where
  | ret (r : ConsumeResult) (s : σ)
  | ub (s : σ)
  | spin (s : σ)
deriving DecidableEq, Repr

/-- `BruteForceProduceConsume::consume` (lines 121-129): `int
consumedValue = 0; bool consumed;` — note that `consumed` is NOT
initialised, so its first read is an arbitrary `Bool`, here the
`consumed` argument.  Loop: `while (!stop && !consumed)` take the lock
and run `consumed = pQueue->consume(consumedValue)`; afterwards `return
consumedValue`.  The stop flag is held constant (single-threaded run)
and `fuel` bounds the number of iterations. -/
def BruteForceProduceConsume.consumeLoop {σ : Type} (inner : IQueueImpl σ)
    (stop : Bool) : Nat → Bool → Int → σ → LoopOut σ
  | _, true, v, s => LoopOut.ret (ConsumeResult.value v) s
  | 0, false, v, s =>
      if stop then LoopOut.ret (ConsumeResult.value v) s else LoopOut.spin s
  | n + 1, false, v, s =>
      if stop then LoopOut.ret (ConsumeResult.value v) s
      else
        match inner.consume s v with
        | none => LoopOut.ub s
        | some (c, v2, s2) =>
            BruteForceProduceConsume.consumeLoop inner stop n c v2 s2

/-- `SleepProduceConsume::consume` (lines 151-158): `int consumedValue =
0; while (!stop) { lock; if (pQueue->consume(consumedValue)) return
consumedValue; else sleep(); }` — there is NO return statement after the
loop, so when the loop exits because `stop` is set, control falls off
the end of the non-void function (`ConsumeResult.undef`).  The stop flag
is held constant and `fuel` bounds the iterations. -/
def SleepProduceConsume.consumeLoop {σ : Type} (inner : IQueueImpl σ)
    (stop : Bool) : Nat → Int → σ → LoopOut σ
  | 0, _, s => if stop then LoopOut.ret ConsumeResult.undef s else LoopOut.spin s
  | n + 1, v, s =>
      if stop then LoopOut.ret ConsumeResult.undef s
      else
        match inner.consume s v with
        | none => LoopOut.ub s
        | some (true, v2, s2) => LoopOut.ret (ConsumeResult.value v2) s2
        | some (false, v2, s2) =>
            SleepProduceConsume.consumeLoop inner stop n v2 s2

/-- The two condition variables declared by `WaitProduceConsume` (lines
165-166): `onConsumeFromFull` and `onProduceToEmpty`. -/
inductive CondVar where
  | onConsumeFromFull
  | onProduceToEmpty
deriving DecidableEq, Repr

/-- The condition variable on which `WaitProduceConsume::produce` blocks
(line 173: `onProduceToEmpty.wait(locker, ...)`). -/
def WaitProduceConsume.produceWaitsOn : CondVar := CondVar.onProduceToEmpty

/-- The condition variable on which `WaitProduceConsume::consume` blocks
(line 189: `onProduceToEmpty.wait(locker, ...)`). -/
def WaitProduceConsume.consumeWaitsOn : CondVar := CondVar.onProduceToEmpty

/-- The condition variable notified by `WaitProduceConsume::produce` when
an insert found the queue empty (line 177: `if (wasEmpty)
onProduceToEmpty.notify_one()`). -/
def WaitProduceConsume.produceNotifies : CondVar := CondVar.onProduceToEmpty

/-- The condition variable notified by `WaitProduceConsume::consume` when
a removal found the queue full (line 193: `if (wasFull)
onConsumeFromFull.notify_one()`). -/
def WaitProduceConsume.consumeNotifies : CondVar := CondVar.onConsumeFromFull

/-- The three strategy classes of the source. -/
inductive StrategyKind where
  | bruteForce
  | sleepPoll
  | waitSignal
deriving DecidableEq, Repr

/-- Queue decorators that could be applied around the core. -/
inductive DecoratorKind where
  | safety
  | sizeLimited (capacity : Int)
deriving DecidableEq, Repr

/-- What `ProducerConsumerTesterBuilder::setStrategy` assembles: which
strategy class, the microsecond delay of the installed sleep policy (if
any), and the decorators wrapped around the tester's `Queue` member. -/
structure StrategyConfig where
  kind : StrategyKind
  sleepMicros : Option Nat
  decorators : List DecoratorKind
deriving DecidableEq, Repr

/-- `ProducerConsumerTesterBuilder::setStrategy` (lines 264-270):
unconditionally builds a `SleepProduceConsume` bound to
`&builded.requestsQueue` — a plain `Queue` member (line 208), with no
decorator applied — and installs `sleep_for(100 microseconds)` as its
sleep policy. -/
def ProducerConsumerTesterBuilder.setStrategy : StrategyConfig :=
  { kind := StrategyKind.sleepPoll
    sleepMicros := some 100
    decorators := [] }

/-- Driver for claims C6 and C9: inserts each value of `vs` in order
through `SizeLimitedQueue::produce` over the plain core, returning the
number of successful inserts and the final core state. -/
def produceSeq (K : Int) (q : List Int) : List Int → Nat × List Int
  | [] => (0, q)
  | v :: rest =>
      match SizeLimitedQueue.produce Queue.impl K q v with
      | some (true, q2) => ((produceSeq K q2 rest).1 + 1, (produceSeq K q2 rest).2)
      | some (false, q2) => produceSeq K q2 rest
      | none => (0, q)

/-- Driver for claim C9: performs `n` removals through the size-limited
decorator over the plain core (whose `consume` is forwarded unchanged),
returning the number of successful removals and the final core state. -/
def consumeSeq (K : Int) : Nat → List Int → Nat × List Int
  | 0, q => (0, q)
  | n + 1, q =>
      match (SizeLimitedQueue.impl Queue.impl K).consume q 0 with
      | some (true, _, q2) => ((consumeSeq K n q2).1 + 1, (consumeSeq K n q2).2)
      | some (false, _, q2) => consumeSeq K n q2
      | none => (0, q)

/-! ## Helper lemmas -/

/-- The back of a queue after pushing `v` is `v`. -/
theorem getLast_push (q : List Int) (v : Int) : (q ++ [v]).getLast? = some v := by
  induction q with
  | nil => rfl
  | cons x xs ih =>
      rw [List.cons_append]
      cases hxs : xs ++ [v] with
      | nil => exact absurd hxs (by simp)
      | cons y l =>
          rw [List.getLast?_cons_cons, ← hxs]
          exact ih

/-- Below capacity, a size-limited insert over the core succeeds and
appends to the back. -/
theorem sizeLimited_produce_below (k : Nat) (q : List Int) (v : Int)
    (h : q.length < k) :
    SizeLimitedQueue.produce Queue.impl (k : Int) q v = some (true, q ++ [v]) := by
  have hfull : SizeLimitedQueue.full Queue.impl (k : Int) q = false := by
    simp only [SizeLimitedQueue.full, Queue.impl, Bool.or_false,
      decide_eq_false_iff_not, not_le]
    exact_mod_cast h
  simp only [SizeLimitedQueue.produce, hfull]
  simp [Queue.impl, Queue.produce]

/-- Inserting a sequence that fits under the capacity succeeds entirely
and appends the values in order. -/
theorem produceSeq_all_ok (k : Nat) (vs : List Int) : ∀ q : List Int,
    q.length + vs.length ≤ k → produceSeq (k : Int) q vs = (vs.length, q ++ vs) := by
  induction vs with
  | nil => intro q _; simp [produceSeq]
  | cons v rest ih =>
      intro q h
      have hlt : q.length < k := by
        simp only [List.length_cons] at h
        omega
      have hstep := sizeLimited_produce_below k q v hlt
      have hrec : produceSeq (k : Int) (q ++ [v]) rest = (rest.length, q ++ [v] ++ rest) := by
        apply ih
        simp only [List.length_append, List.length_cons, List.length_nil] at *
        omega
      simp [produceSeq, hstep, hrec]

/-- Draining a queue of length `n` with `n` removals succeeds entirely
and empties it. -/
theorem consumeSeq_drains (K : Int) (q : List Int) :
    consumeSeq K q.length q = (q.length, []) := by
  induction q with
  | nil => rfl
  | cons x xs ih =>
      have hb : (x :: xs).getLast? = some ((x :: xs).getLast (List.cons_ne_nil x xs)) := by
        simp [List.getLast?_eq_getLast]
      simp only [List.length_cons, consumeSeq, SizeLimitedQueue.impl,
        QueueDecorator.impl, Queue.impl, Queue.consume, hb, List.tail_cons, ih]

/-! ## Claims -/

/-- Claim C1: on every non-empty queue state — written `q ++ [v]`, where
`v` is the most recently inserted element, as the second conjunct shows
`produce` appends — `Queue::consume` returns `true` and the value `v`
read from the back, while the new state is the tail of the container,
i.e. the front element has been discarded. -/
theorem c1_queue_consume_reads_back_pops_front (q : List Int) (v v0 : Int) :
    Queue.impl.consume (q ++ [v]) v0 = some (true, v, (q ++ [v]).tail) ∧
    Queue.impl.produce q v = some (true, q ++ [v]) := by
  constructor
  · simp [Queue.impl, Queue.consume, getLast_push]
  · rfl

/-- Claim C2 (code bug): `WaitProduceConsume` declares the two condition
variables of the claim, and `consume` does notify `onConsumeFromFull` on
a full-to-non-full removal, but `produce` blocks on `onProduceToEmpty`
(line 173) rather than on the full-side variable: the variable `consume`
notifies is one that no operation ever waits on, so a producer blocked on
a full queue misses the wakeup the claim promises. -/
theorem c2_wait_signal_producer_waits_on_wrong_condvar :
    WaitProduceConsume.produceWaitsOn = CondVar.onProduceToEmpty ∧
    WaitProduceConsume.consumeNotifies = CondVar.onConsumeFromFull ∧
    WaitProduceConsume.produceWaitsOn ≠ WaitProduceConsume.consumeNotifies ∧
    WaitProduceConsume.consumeWaitsOn ≠ WaitProduceConsume.consumeNotifies := by
  refine ⟨rfl, rfl, ?_, ?_⟩ <;> decide

/-- Claim C3 (code bug): the local `consumed` of
`BruteForceProduceConsume::consume` is uninitialised; when its garbage
initial value happens to be `true` and stop is unset, the loop body never
runs and the call returns `0` with the queue `[5]` untouched — no removal
succeeded and the returned `0` was never in the queue. -/
theorem c3_bruteforce_returns_without_removal :
    BruteForceProduceConsume.consumeLoop Queue.impl false 1 true 0 [5] =
      LoopOut.ret (ConsumeResult.value 0) [5] ∧
    (0 : Int) ∉ ([5] : List Int) := by
  exact ⟨rfl, by decide⟩

/-- Claim C4 (code bug): with the stop flag already set on entry,
`SleepProduceConsume::consume` exits its `while (!stop)` loop without
ever executing a return statement, so the call does not yield a defined
`int` — control falls off the end of the non-void function. -/
theorem c4_sleeppoll_consume_undefined_on_stop :
    SleepProduceConsume.consumeLoop Queue.impl true 1 0 [] =
      LoopOut.ret ConsumeResult.undef [] := rfl

/-- Claim C5: on an empty inner queue, `SafeQueue::consume` returns
`false` with both the referenced value and the queue state unchanged —
and since this holds for an arbitrary inner implementation, the inner
consume is never invoked; `produce` is the inner produce unchanged. -/
theorem c5_safequeue_empty_fails_unchanged {σ : Type} (inner : IQueueImpl σ)
    (s : σ) (v : Int) (h : inner.empty s = true) :
    (SafeQueue.impl inner).consume s v = some (false, v, s) ∧
    (SafeQueue.impl inner).produce = inner.produce := by
  constructor
  · simp [SafeQueue.impl, SafeQueue.consume, h, QueueDecorator.impl]
  · rfl

/-- Witness for C5 at the concrete empty core queue. -/
theorem c5_witness :
    Queue.impl.empty [] = true ∧
    (SafeQueue.impl Queue.impl).consume [] 0 = some (false, 0, []) ∧
    (SafeQueue.impl Queue.impl).produce = Queue.impl.produce := by
  refine ⟨rfl, ?_, ?_⟩
  · exact (c5_safequeue_empty_fails_unchanged Queue.impl [] 0 rfl).1
  · exact (c5_safequeue_empty_fails_unchanged Queue.impl [] 0 rfl).2

/-- Claim C6: a full size-limited queue rejects an insert with the state
unchanged; `full` reports true exactly when the inner size has reached
the capacity or the inner queue is full; and after `k` successful inserts
of `vs` (with `vs.length = k`) into an empty core, the next insert fails
while the size stays `k`. -/
theorem c6_sizelimited_insert_capacity {σ : Type} (inner : IQueueImpl σ)
    (K : Int) (s s2 : σ) (v w : Int) (k : Nat) (vs : List Int)
    (hlen : vs.length = k)
    (hfull : SizeLimitedQueue.full inner K s = true) :
    (SizeLimitedQueue.impl inner K).produce s v = some (false, s) ∧
    ((SizeLimitedQueue.impl inner K).full s2 = true ↔
      K ≤ inner.size s2 ∨ inner.full s2 = true) ∧
    produceSeq (k : Int) [] vs = (k, vs) ∧
    (SizeLimitedQueue.impl Queue.impl (k : Int)).produce vs w = some (false, vs) ∧
    Queue.impl.size vs = (k : Int) := by
  refine ⟨?_, ?_, ?_, ?_, ?_⟩
  · simp [SizeLimitedQueue.impl, SizeLimitedQueue.produce, hfull]
  · simp [SizeLimitedQueue.impl, SizeLimitedQueue.full]
  · have := produceSeq_all_ok k vs [] (by simp [hlen])
    simpa [hlen] using this
  · have hfk : SizeLimitedQueue.full Queue.impl (k : Int) vs = true := by
      simp [SizeLimitedQueue.full, Queue.impl, hlen]
    simp [SizeLimitedQueue.impl, SizeLimitedQueue.produce, hfk]
  · simp [Queue.impl, hlen]

/-- Witness for C6: capacity 1 with the full state `[3]`, and two inserts
into an empty core under capacity 2 followed by a rejected third. -/
theorem c6_witness :
    ([4, 5] : List Int).length = 2 ∧
    SizeLimitedQueue.full Queue.impl 1 [3] = true ∧
    (SizeLimitedQueue.impl Queue.impl 1).produce [3] 0 = some (false, [3]) ∧
    ((SizeLimitedQueue.impl Queue.impl 1).full [] = true ↔
      (1 : Int) ≤ Queue.impl.size [] ∨ Queue.impl.full [] = true) ∧
    produceSeq ((2 : Nat) : Int) [] [4, 5] = (2, [4, 5]) ∧
    (SizeLimitedQueue.impl Queue.impl ((2 : Nat) : Int)).produce [4, 5] 9 =
      some (false, [4, 5]) ∧
    Queue.impl.size [4, 5] = ((2 : Nat) : Int) := by
  have h := c6_sizelimited_insert_capacity Queue.impl 1 [3] [] 0 9 2 [4, 5] rfl rfl
  exact ⟨rfl, rfl, h.1, h.2.1, h.2.2.1, h.2.2.2.1, h.2.2.2.2⟩

/-- Claim C7 counterexample: `setStop` simply assigns its argument, so
the call sequence `setStop(true); setStop(false)` leaves the flag
`false` — the false-to-true transition of the claim is reversed. -/
theorem c7_counterexample_setstop_reversed :
    applySetStops (setStop false true) [false] = false := rfl

/-- Claim C7 as amended: after `setStop(true)` the flag is `true`, and it
stays `true` under every later sequence of calls all of which pass
`true`; a later `setStop(false)` call, however, would reset it. -/
theorem c7_amended_stop_stays_true (s : Bool) (calls : List Bool)
    (h : ∀ b ∈ calls, b = true) :
    setStop s true = true ∧ applySetStops (setStop s true) calls = true := by
  refine ⟨rfl, ?_⟩
  induction calls with
  | nil => rfl
  | cons c cs ih =>
      have hc : c = true := h c (by simp)
      have hcs : ∀ b ∈ cs, b = true := fun b hb => h b (by simp [hb])
      subst hc
      exact ih hcs

/-- Witness for C7 at a concrete all-true call sequence. -/
theorem c7_witness :
    (∀ b ∈ ([true, true] : List Bool), b = true) ∧
    (setStop false true = true ∧
      applySetStops (setStop false true) [true, true] = true) := by
  exact ⟨by decide, c7_amended_stop_stays_true false [true, true] (by decide)⟩

/-- Claim C8 counterexample: constructing a `SizeLimitedQueue` with
capacity `0` (non-positive) is not rejected — the constructor stores the
capacity without validation and the construction succeeds, after which
the very first insert silently fails instead of any configuration error
having been raised. -/
theorem c8_counterexample_zero_capacity_accepted :
    (SizeLimitedQueue.construct Queue.impl 0).isSome = true ∧
    (SizeLimitedQueue.impl Queue.impl 0).produce [] 7 = some (false, []) := by
  exact ⟨rfl, rfl⟩

/-- Claim C8 as amended: the constructor performs no validation, so a
non-positive capacity is accepted at construction time; the resulting
queue then reports itself full on every state of non-negative size and
rejects every insert with the state unchanged — the misconfiguration
surfaces later as silent insert failures, not as a construction error. -/
theorem c8_amended_no_validation {σ : Type} (inner : IQueueImpl σ) (K : Int)
    (s : σ) (v : Int) (hK : K ≤ 0) (hs : 0 ≤ inner.size s) :
    (SizeLimitedQueue.construct inner K).isSome = true ∧
    SizeLimitedQueue.full inner K s = true ∧
    (SizeLimitedQueue.impl inner K).produce s v = some (false, s) := by
  have hfull : SizeLimitedQueue.full inner K s = true := by
    simp only [SizeLimitedQueue.full, Bool.or_eq_true, decide_eq_true_eq]
    exact Or.inl (le_trans hK hs)
  refine ⟨rfl, hfull, ?_⟩
  simp [SizeLimitedQueue.impl, SizeLimitedQueue.produce, hfull]

/-- Witness for C8 at capacity `-1` over the empty core. -/
theorem c8_witness :
    (-1 : Int) ≤ 0 ∧ (0 : Int) ≤ Queue.impl.size [] ∧
    ((SizeLimitedQueue.construct Queue.impl (-1)).isSome = true ∧
      SizeLimitedQueue.full Queue.impl (-1) [] = true ∧
      (SizeLimitedQueue.impl Queue.impl (-1)).produce [] 7 = some (false, [])) := by
  exact ⟨by decide, by decide,
    c8_amended_no_validation Queue.impl (-1) [] 7 (by decide) (by decide)⟩

/-- Claim C9: for every `vs` of length at most the capacity `k`,
inserting all of `vs` into the empty size-limited queue succeeds
(`vs.length` successful inserts), and `vs.length` removals from the
resulting state all succeed and return the queue to the empty state. -/
theorem c9_roundtrip (k : Nat) (vs : List Int) (h : vs.length ≤ k) :
    produceSeq (k : Int) [] vs = (vs.length, vs) ∧
    consumeSeq (k : Int) vs.length (produceSeq (k : Int) [] vs).2 =
      (vs.length, []) := by
  have hp : produceSeq (k : Int) [] vs = (vs.length, vs) := by
    simpa using produceSeq_all_ok k vs [] (by simpa using h)
  refine ⟨hp, ?_⟩
  rw [hp]
  exact consumeSeq_drains (k : Int) vs

/-- Witness for C9 with three values under capacity 3. -/
theorem c9_witness :
    ([7, 8, 9] : List Int).length ≤ 3 ∧
    (produceSeq ((3 : Nat) : Int) [] [7, 8, 9] = (([7, 8, 9] : List Int).length, [7, 8, 9]) ∧
      consumeSeq ((3 : Nat) : Int) ([7, 8, 9] : List Int).length
        (produceSeq ((3 : Nat) : Int) [] [7, 8, 9]).2 = (([7, 8, 9] : List Int).length, [])) := by
  exact ⟨by decide, c9_roundtrip 3 [7, 8, 9] (by decide)⟩

/-- Claim C10: the builder's `setStrategy` always assembles a Sleep-Poll
strategy with a fixed 100-microsecond sleep policy over the undecorated
`Queue` member, and the assembled strategy's `consume` on the empty queue
(stop unset) reaches the core's `consume` on an empty container —
undefined behaviour, the underflow the Safety decorator would prevent. -/
theorem c10_builder_sleeppoll_undecorated :
    ProducerConsumerTesterBuilder.setStrategy =
      { kind := StrategyKind.sleepPoll
        sleepMicros := some 100
        decorators := [] } ∧
    SleepProduceConsume.consumeLoop Queue.impl false 1 0 [] = LoopOut.ub [] := by
  exact ⟨rfl, rfl⟩

end PC
